import Mathlib

/-!
Verification development for the brainbot control plane.

The definitions below are shallow embeddings of the Python sources:
  * `brainbot_core/transport.py`       (MsgSerializer, BaseZMQServer, BaseZMQClient)
  * `brainbot_core/proto/messages.py`  (MessageSerializer)
  * `brainbot_command_service/service.py`  (CommandService)
  * `brainbot_control_service/command_loop.py` and `service.py` (edge loop)
  * `brainbot_command_service/providers/data.py` (data-collection state machine)

Machine floats are represented by their 64-bit patterns where no arithmetic is
performed on them (the codec and the action plumbing only move them around),
and by rationals where only literal values are compared. External libraries
(msgpack, numpy's npy format, the json module) are modelled at the level of
their documented contracts: msgpack round-trips its own data model, `np.save`
followed by `np.load` restores dtype, shape and elements, and a self-describing
blob is used to stand for the `.npy` byte string.
-/

namespace Brainbot

/-- The numeric dtypes the spec lists for n-dimensional arrays. -/
inductive Dtype where
  | float16 | float32 | float64
  | uint8 | uint16 | uint32 | uint64
  | int8 | int16 | int32 | int64
deriving DecidableEq, Repr

/-- Injective numeric tag for a dtype, used by the `.npy` blob model. -/
def dtypeTag : Dtype → Nat
  | .float16 => 0 | .float32 => 1 | .float64 => 2
  | .uint8 => 3 | .uint16 => 4 | .uint32 => 5 | .uint64 => 6
  | .int8 => 7 | .int16 => 8 | .int32 => 9 | .int64 => 10

/-- Partial inverse of `dtypeTag` (the `.npy` header parser's dtype lookup). -/
def tagToDtype : Nat → Option Dtype
  | 0 => some .float16 | 1 => some .float32 | 2 => some .float64
  | 3 => some .uint8 | 4 => some .uint16 | 5 => some .uint32 | 6 => some .uint64
  | 7 => some .int8 | 8 => some .int16 | 9 => some .int32 | 10 => some .int64
  | _ => none

/-- Bytes-per-element of a dtype (numpy's itemsize). -/
def dtypeItemsize : Dtype → Nat
  | .float16 => 2 | .float32 => 4 | .float64 => 8
  | .uint8 => 1 | .uint16 => 2 | .uint32 => 4 | .uint64 => 8
  | .int8 => 1 | .int16 => 2 | .int32 => 4 | .int64 => 8

/-- The values the application hands to `MsgSerializer.to_bytes`
(`transport.py`): Python scalars, strings, bytes, bools, None, lists,
string-keyed dicts, `np.ndarray` (dtype, shape, element words) and
`ModalityConfig` (represented by its `model_dump_json` payload, the json
module being external). Float scalars carry their IEEE-754 bit pattern;
array elements carry their per-element bit patterns. -/
inductive Value where
  | int (n : Int)
  | float (bits : Nat)
  | str (s : String)
  | bytes (b : List Nat)
  | bool (b : Bool)
  | null
  | list (xs : List Value)
  | map (kvs : List (String × Value))
  | ndarray (d : Dtype) (shape : List Nat) (data : List Nat)
  | modalityConfig (asJson : String)

/-- msgpack's own data model: what `packb` writes natively once the
`default` hook has replaced arrays and modality configs by tagged maps. -/
inductive Wire where
  | int (n : Int)
  | float (bits : Nat)
  | str (s : String)
  | bin (b : List Nat)
  | bool (b : Bool)
  | nil
  | arr (xs : List Wire)
  | map (kvs : List (String × Wire))

/-- Model of `np.save` on an array: a self-describing blob holding the dtype
tag, the number of dimensions, the shape and the element words, standing for
the `.npy` byte string (`allow_pickle=False`). -/
def npySave (d : Dtype) (shape : List Nat) (data : List Nat) : List Nat :=
  dtypeTag d :: shape.length :: (shape ++ data)

/-- Model of `np.load` on a blob produced by `npySave`: parses the header and
checks that the payload length matches the header (as `np.load` does);
malformed blobs fail. -/
def npyLoad (b : List Nat) : Option (Dtype × List Nat × List Nat) :=
  match b with
  | t :: l :: rest =>
    match tagToDtype t with
    | none => none
    | some d =>
      if l ≤ rest.length then
        let shape := rest.take l
        let data := rest.drop l
        if data.length = shape.prod then some (d, shape, data) else none
      else none
  | _ => none

theorem npyLoad_npySave (d : Dtype) (shape : List Nat) (data : List Nat)
    (h : data.length = shape.prod) :
    npyLoad (npySave d shape data) = some (d, shape, data) := by
  have htag : tagToDtype (dtypeTag d) = some d := by cases d <;> rfl
  simp [npySave, npyLoad, htag, List.take_left, List.drop_left, h]

mutual

/-- `MsgSerializer.encode_custom_classes` lifted through `msgpack.packb`
(`transport.py` lines 46-71): dicts, lists and scalars are packed natively;
an `np.ndarray` becomes the tagged map with key `__ndarray_class__` carrying
the npy bytes under `as_npy`; a `ModalityConfig` becomes the tagged map with
key `__ModalityConfig_class__` carrying its json under `as_json`. -/
def encode : Value → Wire
  | .int n => .int n
  | .float bits => .float bits
  | .str s => .str s
  | .bytes b => .bin b
  | .bool b => .bool b
  | .null => .nil
  | .list xs => .arr (encodeList xs)
  | .map kvs => .map (encodeKvs kvs)
  | .ndarray d shape data =>
      .map [("__ndarray_class__", .bool true), ("as_npy", .bin (npySave d shape data))]
  | .modalityConfig j =>
      .map [("__ModalityConfig_class__", .bool true), ("as_json", .str j)]

/-- Children of a packed list. -/
def encodeList : List Value → List Wire
  | [] => []
  | v :: vs => encode v :: encodeList vs

/-- Children of a packed string-keyed map. -/
def encodeKvs : List (String × Value) → List (String × Wire)
  | [] => []
  | (k, v) :: kvs => (k, encode v) :: encodeKvs kvs

end

mutual

/-- `MsgSerializer.decode_custom_classes` lifted through `msgpack.unpackb`
(`transport.py`): the object hook runs on every decoded map, children first.
A map carrying `__ModalityConfig_class__` is replaced by
`ModalityConfig.from_json(obj["as_json"])`; a map carrying
`__ndarray_class__` is replaced by `np.load` of `obj["as_npy"]`; other maps
pass through. A missing `as_json`/`as_npy` key, a non-bytes npy payload or a
malformed blob raises in the source, modelled as `none`. -/
def decode : Wire → Option Value
  | .int n => some (.int n)
  | .float bits => some (.float bits)
  | .str s => some (.str s)
  | .bin b => some (.bytes b)
  | .bool b => some (.bool b)
  | .nil => some .null
  | .arr ws =>
    match decodeList ws with
    | some vs => some (.list vs)
    | none => none
  | .map kvs =>
    match decodeKvs kvs with
    | none => none
    | some vkvs =>
      if (vkvs.map Prod.fst).contains "__ModalityConfig_class__" then
        match List.lookup "as_json" vkvs with
        | some (.str j) => some (.modalityConfig j)
        | _ => none
      else if (vkvs.map Prod.fst).contains "__ndarray_class__" then
        match List.lookup "as_npy" vkvs with
        | some (.bytes b) =>
          match npyLoad b with
          | some (d, shape, data) => some (.ndarray d shape data)
          | none => none
        | _ => none
      else some (.map vkvs)

/-- Decode every element of a packed list. -/
def decodeList : List Wire → Option (List Value)
  | [] => some []
  | w :: ws =>
    match decode w, decodeList ws with
    | some v, some vs => some (v :: vs)
    | _, _ => none

/-- Decode every entry of a packed map (the hook has already run on the
children when the enclosing map is examined). -/
def decodeKvs : List (String × Wire) → Option (List (String × Value))
  | [] => some []
  | (k, w) :: kvs =>
    match decode w, decodeKvs kvs with
    | some v, some vs => some ((k, v) :: vs)
    | _, _ => none

end

mutual

/-- The encodable values the round-trip sentence ranges over: scalars,
strings, bytes, bool, null, sequences, string-keyed mappings and numeric
arrays (with the element count matching the shape, as every `np.ndarray`
satisfies), where no mapping uses one of the codec's two reserved tag keys. -/
def plain : Value → Bool
  | .int _ => true
  | .float _ => true
  | .str _ => true
  | .bytes _ => true
  | .bool _ => true
  | .null => true
  | .list xs => plainList xs
  | .map kvs =>
      !((kvs.map Prod.fst).contains "__ndarray_class__") &&
      !((kvs.map Prod.fst).contains "__ModalityConfig_class__") &&
      plainKvs kvs
  | .ndarray _ shape data => data.length == shape.prod
  | .modalityConfig _ => false

/-- `plain` on every element of a sequence. -/
def plainList : List Value → Bool
  | [] => true
  | v :: vs => plain v && plainList vs

/-- `plain` on every entry of a mapping. -/
def plainKvs : List (String × Value) → Bool
  | [] => true
  | (_, v) :: kvs => plain v && plainKvs kvs

end

mutual

/-- Round-trip of the transport codec on tag-free values. -/
theorem decode_encode : ∀ (v : Value), plain v = true → decode (encode v) = some v
  | .int _, _ => rfl
  | .float _, _ => rfl
  | .str _, _ => rfl
  | .bytes _, _ => rfl
  | .bool _, _ => rfl
  | .null, _ => rfl
  | .list xs, h => by
      have hxs := decodeList_encodeList xs (by simpa [plain] using h)
      simp [encode, decode, hxs]
  | .map kvs, h => by
      have h' : ((!((kvs.map Prod.fst).contains "__ndarray_class__") &&
          !((kvs.map Prod.fst).contains "__ModalityConfig_class__")) &&
          plainKvs kvs) = true := h
      rw [Bool.and_eq_true, Bool.and_eq_true, Bool.not_eq_true', Bool.not_eq_true'] at h'
      obtain ⟨⟨h1, h2⟩, h3⟩ := h'
      have hkvs := decodeKvs_encodeKvs kvs h3
      simp only [encode, decode, hkvs, h1, h2]
      simp
  | .ndarray d shape data, h => by
      have hlen : data.length = shape.prod := by simpa [plain] using h
      have hstep : List.lookup "as_npy"
          [("__ndarray_class__", Value.bool true),
           ("as_npy", Value.bytes (npySave d shape data))] =
          some (Value.bytes (npySave d shape data)) := rfl
      simp [encode, decode, decodeKvs, hstep, npyLoad_npySave d shape data hlen]
  | .modalityConfig _, h => by simp [plain] at h

/-- Round-trip on every element of a sequence. -/
theorem decodeList_encodeList :
    ∀ (xs : List Value), plainList xs = true → decodeList (encodeList xs) = some xs
  | [], _ => rfl
  | v :: vs, h => by
      have h' : plain v = true ∧ plainList vs = true := by
        simpa [plainList, Bool.and_eq_true] using h
      simp [encodeList, decodeList, decode_encode v h'.1, decodeList_encodeList vs h'.2]

/-- Round-trip on every entry of a mapping. -/
theorem decodeKvs_encodeKvs :
    ∀ (kvs : List (String × Value)), plainKvs kvs = true →
      decodeKvs (encodeKvs kvs) = some kvs
  | [], _ => rfl
  | (k, v) :: kvs, h => by
      have h' : plain v = true ∧ plainKvs kvs = true := by
        simpa [plainKvs, Bool.and_eq_true] using h
      simp [encodeKvs, decodeKvs, decode_encode v h'.1, decodeKvs_encodeKvs kvs h'.2]

end

/-- A string-keyed mapping that happens to use the codec's reserved tag key
`__ndarray_class__` and carries a well-formed npy blob under `as_npy`.
It is an encodable value (a mapping of a bool and a bytes entry), but the
decode hook mistakes its encoding for an encoded array. -/
def c1TagCollision : Value :=
  .map [("__ndarray_class__", .bool true), ("as_npy", .bytes (npySave .uint8 [1] [7]))]

/-- Claim C1, counterexample: the round-trip sentence fails as stated.  The
concrete mapping `c1TagCollision` (a string-keyed mapping, hence an encodable
value) is encoded structurally by `msgpack.packb`, but
`MsgSerializer.decode_custom_classes` sees the reserved key
`__ndarray_class__` in it and returns `np.load` of its `as_npy` entry, so
decoding the encoding yields a numeric array, not the original mapping. -/
theorem c1_roundtrip_counterexample :
    decode (encode c1TagCollision) = some (.ndarray .uint8 [1] [7]) ∧
    decode (encode c1TagCollision) ≠ some c1TagCollision := by
  constructor
  · rfl
  · intro h
    rw [show decode (encode c1TagCollision) = some (.ndarray .uint8 [1] [7]) from rfl] at h
    injection h with h
    exact Value.noConfusion h

/-- Claim C1 (amended): decoding the encoding yields a structurally equal
value for every encodable value — scalars, strings, bytes, bool, null,
homogeneous/heterogeneous string-keyed mappings, sequences, and n-dimensional
numeric arrays of the listed dtypes (compared by dtype, shape and elements) —
provided no mapping inside the value uses one of the codec's reserved tag
keys `__ndarray_class__` / `__ModalityConfig_class__`. -/
theorem c1_codec_roundtrip (v : Value) (h : plain v = true) :
    decode (encode v) = some v :=
  decode_encode v h

/-- Witness for C1: the round-trip theorem applied to a concrete
heterogeneous value containing scalars, a string, bytes, bool, null, a
sequence, a nested mapping and a 2x2 float32 array. -/
theorem c1_codec_roundtrip_witness :
    decode (encode (.map [("x", .int 1),
                          ("arr", .ndarray .float32 [2, 2] [1, 2, 3, 4]),
                          ("s", .str "hi"),
                          ("nested", .map [("b", .bytes [0, 255])]),
                          ("seq", .list [.bool true, .null, .float 13])])) =
      some (.map [("x", .int 1),
                  ("arr", .ndarray .float32 [2, 2] [1, 2, 3, 4]),
                  ("s", .str "hi"),
                  ("nested", .map [("b", .bytes [0, 255])]),
                  ("seq", .list [.bool true, .null, .float 13])]) :=
  c1_codec_roundtrip _ (by rfl)

/-- A well-formed uint8 array of 65536 elements (65536 bytes of payload),
larger than any plausible frame bound. -/
def c7BigArray : Value := .ndarray .uint8 [65536] (List.replicate 65536 0)

/-- Claim C7, counterexample: there is no size check at decode.  The decode
path (`MsgSerializer.from_bytes` / `decode_custom_classes`, and likewise
`_msgpack_decode`) loads any well-formed ndarray payload; the concrete
65536-byte uint8 array below round-trips successfully instead of being
rejected, and no `max_frame_bytes` configuration exists anywhere in the
codec for it to be measured against. -/
theorem c7_oversize_counterexample :
    dtypeItemsize .uint8 * (List.replicate 65536 (0 : Nat)).length = 65536 ∧
    decode (encode c7BigArray) = some c7BigArray := by
  constructor
  · rw [List.length_replicate, dtypeItemsize, one_mul]
  · apply decode_encode
    show plain (.ndarray .uint8 [65536] (List.replicate 65536 0)) = true
    simp only [plain, List.length_replicate, List.prod_cons, List.prod_nil, mul_one, beq_self_eq_true]

/-- Claim C7 (amended): decode imposes no size limit on numeric arrays.
Every encoded payload whose array blob is well formed is decoded
successfully, whatever its size; the codec has no `max_frame_bytes`
configuration and no OVERSIZED failure. -/
theorem c7_decode_no_size_limit (d : Dtype) (shape data : List Nat)
    (h : data.length = shape.prod) :
    decode (encode (.ndarray d shape data)) = some (.ndarray d shape data) :=
  decode_encode _ (by simp [plain, h])

/-- Witness for C7 (amended): a concrete 2-element int16 array decodes to
itself. -/
theorem c7_decode_no_size_limit_witness :
    decode (encode (.ndarray .int16 [2] [5, 6])) = some (.ndarray .int16 [2] [5, 6]) :=
  c7_decode_no_size_limit .int16 [2] [5, 6] (by rfl)

/-!  Command orchestrator (`brainbot_command_service/service.py`).

`CommandService` keeps a fixed provider map (`self._providers`, modelled by
the list of registered keys), the active key, the set of prepared keys, the
shutdown flag and the one-shot notification event.  Provider keys are
non-empty strings in every configuration (`run_command_service.py` builds
them as literals or as prefixed names), so Python's truthiness test on
`self._active_key` coincides with the `Option` match below.  -/

/-- Lifecycle-relevant state of a `CommandService` instance. -/
structure Orchestrator where
  providers : List String
  defaultKey : String
  activeKey : Option String
  prepared : List String
  currentMode : String
  currentHint : String
  shutdownRequested : Bool
  notified : Bool
  running : Bool
deriving DecidableEq, Repr

/-- `CommandService.__init__`: no provider is active or prepared, the hint is
"numeric", no shutdown was requested, and the server loop is running. -/
def initialOrchestrator (providers : List String) (defaultKey : String) : Orchestrator :=
  { providers := providers
    defaultKey := defaultKey
    activeKey := none
    prepared := []
    currentMode := defaultKey
    currentHint := "numeric"
    shutdownRequested := false
    notified := false
    running := true }

/-- `CommandService._shutdown_active`: if a registered provider is active,
shut it down, discard it from the prepared set, clear the active key and
reset the hint. -/
def shutdownActive (s : Orchestrator) : Orchestrator :=
  match s.activeKey with
  | some k =>
    if k ∈ s.providers then
      { s with prepared := s.prepared.erase k, activeKey := none, currentHint := "numeric" }
    else s
  | none => s

/-- Caller-visible outcome of `set_active_provider`: normal return,
`ValueError("Unknown provider ...")`, or a propagated `prepare()` exception. -/
inductive SetActiveOutcome where
  | ok
  | unknownProvider
  | prepareFailed
deriving DecidableEq, Repr

/-- `CommandService.set_active_provider(key)`.  `wantsFull` is the value of
`provider.wants_full_observation()` for the new provider and `prepRaises`
says whether this call's `provider.prepare()` raises; when it raises the
exception propagates after `_shutdown_active` has already run, exactly as in
the source (all state mutated so far is kept). -/
def setActiveProvider (s : Orchestrator) (key : String) (wantsFull : Bool)
    (prepRaises : Bool) : Orchestrator × SetActiveOutcome :=
  if key ∉ s.providers then (s, .unknownProvider)
  else if s.activeKey = some key ∧ key ∈ s.prepared then (s, .ok)
  else
    let s1 := shutdownActive s
    if prepRaises then (s1, .prepareFailed)
    else
      ({ s1 with
          activeKey := some key
          prepared := s1.prepared.insert key
          currentMode := key
          currentHint := if wantsFull then "full" else "numeric" }, .ok)

/-- `CommandService.initiate_shutdown`: set the flag; the returned one-shot
event is the `notified` field. -/
def initiateShutdown (s : Orchestrator) : Orchestrator :=
  { s with shutdownRequested := true }

/-- Effect of `_handle_get_action` on the lifecycle fields: when shutdown
was requested the handler signals the one-shot event; it never touches the
active key or the prepared set. -/
def getActionLifecycle (s : Orchestrator) : Orchestrator :=
  if s.shutdownRequested then { s with notified := true } else s

/-- One orchestrator operation, as observed between RPC requests:
`set_active_provider` (with either provider capability and either `prepare`
outcome), a `get_action` request, `initiate_shutdown`, or the final
`_shutdown_active` performed when `run` unwinds. -/
inductive OrchStep : Orchestrator → Orchestrator → Prop where
  | setActive (s : Orchestrator) (key : String) (wantsFull prepRaises : Bool) :
      OrchStep s (setActiveProvider s key wantsFull prepRaises).1
  | getAction (s : Orchestrator) : OrchStep s (getActionLifecycle s)
  | initiate (s : Orchestrator) : OrchStep s (initiateShutdown s)
  | finalShutdown (s : Orchestrator) : OrchStep s (shutdownActive s)

/-- Orchestrator states reachable from a fresh `CommandService`. -/
inductive ReachableOrch (providers : List String) (defaultKey : String) : Orchestrator → Prop where
  | init : ReachableOrch providers defaultKey (initialOrchestrator providers defaultKey)
  | step {s t : Orchestrator} : ReachableOrch providers defaultKey s → OrchStep s t →
      ReachableOrch providers defaultKey t

/-- The lifecycle invariant: the prepared set is empty or the singleton of
the active key, and the active key is always a registered provider. -/
def LifecycleInv (s : Orchestrator) : Prop :=
  (s.prepared = [] ∨ ∃ k, s.prepared = [k] ∧ s.activeKey = some k) ∧
  (∀ k, s.activeKey = some k → k ∈ s.providers)

theorem shutdownActive_providers (s : Orchestrator) :
    (shutdownActive s).providers = s.providers := by
  cases hak : s.activeKey with
  | none => simp [shutdownActive, hak]
  | some a =>
    by_cases ha : a ∈ s.providers <;> simp [shutdownActive, hak, ha]

theorem lifecycleInv_reachable {providers : List String} {defaultKey : String}
    {s : Orchestrator} (h : ReachableOrch providers defaultKey s) : LifecycleInv s := by
  induction h with
  | init =>
    refine ⟨Or.inl rfl, ?_⟩
    intro k hk
    simp [initialOrchestrator] at hk
  | step hr hstep ih =>
    rename_i s t
    obtain ⟨ih1, ih2⟩ := ih
    cases hstep with
    | setActive key wantsFull prepRaises =>
      by_cases hreg : key ∉ s.providers
      · simpa [setActiveProvider, hreg] using ⟨ih1, ih2⟩
      · by_cases hnoop : s.activeKey = some key ∧ key ∈ s.prepared
        · simpa [setActiveProvider, hreg, hnoop] using ⟨ih1, ih2⟩
        · have hshut : (shutdownActive s).prepared = [] ∧ (shutdownActive s).activeKey = none := by
            rcases ih1 with hemp | ⟨k, hk, hak⟩
            · cases hak : s.activeKey with
              | none => simp [shutdownActive, hak, hemp]
              | some a =>
                have ha := ih2 a hak
                simp [shutdownActive, hak, ha, hemp]
            · have ha := ih2 k hak
              simp [shutdownActive, hak, ha, hk]
          by_cases hpr : prepRaises
          · have heq : (setActiveProvider s key wantsFull prepRaises).1 = shutdownActive s := by
              simp [setActiveProvider, hreg, hnoop, hpr]
            rw [heq]
            refine ⟨Or.inl hshut.1, ?_⟩
            intro k hk
            rw [hshut.2] at hk
            cases hk
          · have heq : (setActiveProvider s key wantsFull prepRaises).1 =
                { shutdownActive s with
                    activeKey := some key
                    prepared := (shutdownActive s).prepared.insert key
                    currentMode := key
                    currentHint := if wantsFull then "full" else "numeric" } := by
              simp [setActiveProvider, hreg, hnoop, hpr]
            rw [heq]
            refine And.intro (Or.inr (Exists.intro key (And.intro ?_ ?_))) ?_
            · simp [hshut.1, List.insert]
            · rfl
            · intro k hk
              have hkk : key = k := by simpa using hk
              subst hkk
              have hkey : key ∈ s.providers := not_not.mp hreg
              simpa [shutdownActive_providers] using hkey
    | getAction =>
      by_cases hs : s.shutdownRequested
      · have heq : getActionLifecycle s = { s with notified := true } := by
          simp [getActionLifecycle, hs]
        rw [heq]
        exact ⟨ih1, ih2⟩
      · have heq : getActionLifecycle s = s := by simp [getActionLifecycle, hs]
        rw [heq]
        exact ⟨ih1, ih2⟩
    | initiate =>
      exact ⟨ih1, ih2⟩
    | finalShutdown =>
      cases hak : s.activeKey with
      | none =>
        have heq : shutdownActive s = s := by simp [shutdownActive, hak]
        rw [heq]
        exact ⟨ih1, ih2⟩
      | some a =>
        have ha := ih2 a hak
        rcases ih1 with hemp | ⟨k, hk, hak2⟩
        · refine ⟨Or.inl ?_, ?_⟩
          · simp [shutdownActive, hak, ha, hemp]
          · intro k hk
            simp [shutdownActive, hak, ha] at hk
        · have : k = a := by rw [hak] at hak2; exact (Option.some_inj.mp hak2).symm
          subst this
          refine ⟨Or.inl ?_, ?_⟩
          · simp [shutdownActive, hak, ha, hk]
          · intro k₂ hk₂
            simp [shutdownActive, hak, ha] at hk₂

theorem shutdownActive_clears {s : Orchestrator}
    (h1 : s.prepared = [] ∨ ∃ k, s.prepared = [k] ∧ s.activeKey = some k)
    (h2 : ∀ k, s.activeKey = some k → k ∈ s.providers) :
    (shutdownActive s).prepared = [] ∧ (shutdownActive s).activeKey = none := by
  rcases h1 with hemp | ⟨k, hk, hact⟩
  · cases hak : s.activeKey with
    | none => simp [shutdownActive, hak, hemp]
    | some a =>
      have ha := h2 a hak
      simp [shutdownActive, hak, ha, hemp]
  · have ha := h2 k hact
    simp [shutdownActive, hact, ha, hk]

/-- Claim C4: in every orchestrator state reachable by any sequence of
`set_active_provider` (with any capability and any `prepare` outcome,
including raising ones), `get_action`, `initiate_shutdown` and the final
`_shutdown_active`, at most one registered provider is prepared. -/
theorem c4_at_most_one_prepared {providers : List String} {defaultKey : String}
    {s : Orchestrator} (h : ReachableOrch providers defaultKey s) :
    s.prepared.length ≤ 1 := by
  obtain ⟨h1, _⟩ := lifecycleInv_reachable h
  rcases h1 with h1 | ⟨k, hk, _⟩
  · simp [h1]
  · simp [hk]

/-- Witness for C4: the bound evaluated right after a successful activation
of provider "infer" from a fresh two-provider service. -/
theorem c4_at_most_one_prepared_witness :
    ((setActiveProvider (initialOrchestrator ["idle", "infer"] "idle")
        "infer" true false).1).prepared.length ≤ 1 :=
  c4_at_most_one_prepared
    (ReachableOrch.step ReachableOrch.init (OrchStep.setActive _ "infer" true false))

/-- Claim C5: `set_active_provider` on an unregistered key fails with the
unknown-provider error and changes nothing; on the already-active prepared
key it is a no-op; and when the new provider's `prepare()` raises, the
exception propagates and the service is left with no active provider and an
empty prepared set. -/
theorem c5_failed_activation_atomic {providers : List String} {defaultKey : String}
    {s : Orchestrator} (h : ReachableOrch providers defaultKey s)
    (key : String) (wantsFull : Bool) :
    (key ∉ s.providers → ∀ pr, setActiveProvider s key wantsFull pr = (s, .unknownProvider)) ∧
    (s.activeKey = some key → key ∈ s.prepared →
      ∀ pr, setActiveProvider s key wantsFull pr = (s, .ok)) ∧
    (key ∈ s.providers → ¬(s.activeKey = some key ∧ key ∈ s.prepared) →
      (setActiveProvider s key wantsFull true).2 = .prepareFailed ∧
      (setActiveProvider s key wantsFull true).1.activeKey = none ∧
      (setActiveProvider s key wantsFull true).1.prepared = []) := by
  obtain ⟨h1, h2⟩ := lifecycleInv_reachable h
  refine ⟨?_, ?_, ?_⟩
  · intro hreg pr
    simp [setActiveProvider, hreg]
  · intro hact hprep pr
    have hin := h2 key hact
    simp [setActiveProvider, hin, hact, hprep]
  · intro hreg hnoop
    have hshut := shutdownActive_clears h1 h2
    have heq : (setActiveProvider s key wantsFull true).1 = shutdownActive s := by
      simp [setActiveProvider, hreg, hnoop]
    have heq2 : (setActiveProvider s key wantsFull true).2 = .prepareFailed := by
      simp [setActiveProvider, hreg, hnoop]
    exact ⟨heq2, heq ▸ hshut.2, heq ▸ hshut.1⟩

/-- The state of a two-provider service after successfully activating
"idle": used to witness C5's failed-activation clause. -/
def c5DemoState : Orchestrator :=
  (setActiveProvider (initialOrchestrator ["idle", "infer"] "idle") "idle" false false).1

/-- Witness for C5: from the concrete reachable state `c5DemoState`
(provider "idle" active and prepared), a raising activation of "infer"
propagates the failure and leaves no active and no prepared provider. -/
theorem c5_failed_activation_atomic_witness :
    (setActiveProvider c5DemoState "infer" true true).2 = .prepareFailed ∧
    (setActiveProvider c5DemoState "infer" true true).1.activeKey = none ∧
    (setActiveProvider c5DemoState "infer" true true).1.prepared = [] :=
  (c5_failed_activation_atomic
    (ReachableOrch.step ReachableOrch.init (OrchStep.setActive _ "idle" false false))
    "infer" true).2.2 (by decide) (by decide)

/-!  The `get_action` request path (`CommandService._handle_get_action`)
and the server loop's dispatch (`BaseZMQServer.run`). -/

/-- Is this value an image-like array, i.e. an `np.ndarray` with
`ndim >= 2`?  (`ndim` of an array is the length of its shape.) -/
def isImageArray : Value → Bool
  | .ndarray _ shape _ => 2 ≤ shape.length
  | _ => false

/-- `CommandService._observation_contains_images`: look at the direct values
of `observation.payload["robot"]` (defaulting to an empty mapping) and test
each for being an array of rank at least 2.  A present but non-mapping
"robot" entry would raise in the source; the theorems below only use this
function under the well-shapedness premise `robotWellShaped`. -/
def observationContainsImages (payload : List (String × Value)) : Bool :=
  match List.lookup "robot" payload with
  | some (.map kvs) => kvs.any fun kv => isImageArray kv.2
  | _ => false

/-- The "robot" entry of the observation payload is a mapping or absent. -/
def robotWellShaped (payload : List (String × Value)) : Bool :=
  match List.lookup "robot" payload with
  | none => true
  | some (.map _) => true
  | some _ => false

/-- A `get_action` reply: either the shutdown status envelope or an action
envelope with the actions map (string keys to float64 bit patterns) and the
current observation hint. -/
inductive GetActionReply where
  | statusShutdown
  | action (actions : List (String × Nat)) (hint : String)

/-- `CommandService._handle_get_action`.  `wantsFullOf key` stands for
`self._providers[key].wants_full_observation()` and `computed` for the
actions of `provider.compute_command(observation)`.  Returns the reply, a
flag recording whether `compute_command` was invoked, and the new state.
The handler key is `self._active_key or self._default_key` (provider keys
are non-empty, so Python truthiness is option-emptiness). -/
def handleGetAction (s : Orchestrator) (wantsFullOf : String → Bool)
    (obsPayload : List (String × Value)) (computed : List (String × Nat)) :
    GetActionReply × Bool × Orchestrator :=
  if s.shutdownRequested then
    (.statusShutdown, false, { s with notified := true })
  else
    let key := s.activeKey.getD s.defaultKey
    if wantsFullOf key && !(observationContainsImages obsPayload) then
      (.action [] s.currentHint, false, s)
    else
      (.action computed s.currentHint, true, s)

/-- One iteration of `BaseZMQServer.run` serving a `get_action` request for
a `CommandService`: the handler runs, the reply is sent, and the loop
re-enters `while self.running`.  `run` never invokes
`CommandService._post_send`, so `self.running` is left untouched by the
delivery itself. -/
def serveGetAction (s : Orchestrator) (wantsFullOf : String → Bool)
    (obsPayload : List (String × Value)) (computed : List (String × Nat)) :
    GetActionReply × Orchestrator :=
  let r := handleGetAction s wantsFullOf obsPayload computed
  (r.1, r.2.2)

/-- `CommandService._post_send`, as written in the source: once the shutdown
envelope has been delivered, clear `self.running` so the loop would exit.
No caller of this method exists anywhere in the code base. -/
def postSend (s : Orchestrator) : Orchestrator :=
  if s.shutdownRequested && s.notified then { s with running := false } else s

/-- Claim C3: on a non-shutdown `get_action`, when the active provider wants
full observations and the (well-shaped) inbound observation holds no array
of rank at least 2 in its robot payload, the reply is an action envelope
with an empty actions map and `compute_command` is not invoked; in every
other non-shutdown case `compute_command` is invoked. -/
theorem c3_observation_negotiation (s : Orchestrator) (wantsFullOf : String → Bool)
    (obsPayload : List (String × Value)) (computed : List (String × Nat))
    (hsd : s.shutdownRequested = false)
    (hrobot : robotWellShaped obsPayload = true) :
    (wantsFullOf (s.activeKey.getD s.defaultKey) = true →
      observationContainsImages obsPayload = false →
      handleGetAction s wantsFullOf obsPayload computed =
        (.action [] s.currentHint, false, s)) ∧
    ((wantsFullOf (s.activeKey.getD s.defaultKey) = false ∨
        observationContainsImages obsPayload = true) →
      (handleGetAction s wantsFullOf obsPayload computed).2.1 = true) := by
  constructor
  · intro hfull himg
    simp [handleGetAction, hsd, hfull, himg]
  · intro hcase
    rcases hcase with hfull | himg
    · simp [handleGetAction, hsd, hfull]
    · simp [handleGetAction, hsd, himg]

/-- Witness for C3: with provider "infer" active and wanting full
observations, a numeric-only robot payload produces the empty action without
invoking compute, and the same payload with a 2-D array invokes compute. -/
theorem c3_observation_negotiation_witness :
    (handleGetAction
        { initialOrchestrator ["infer"] "infer" with activeKey := some "infer" }
        (fun _ => true) [("robot", .map [("x", .float 3)])] [("a", 5)] =
      (.action [] "numeric", false,
        { initialOrchestrator ["infer"] "infer" with activeKey := some "infer" })) ∧
    ((handleGetAction
        { initialOrchestrator ["infer"] "infer" with activeKey := some "infer" }
        (fun _ => true)
        [("robot", .map [("cam", .ndarray .uint8 [2, 2] [0, 0, 0, 0])])]
        [("a", 5)]).2.1 = true) := by
  constructor
  · exact (c3_observation_negotiation
      { initialOrchestrator ["infer"] "infer" with activeKey := some "infer" }
      (fun _ => true) [("robot", .map [("x", .float 3)])] [("a", 5)] rfl rfl).1 rfl rfl
  · exact (c3_observation_negotiation
      { initialOrchestrator ["infer"] "infer" with activeKey := some "infer" }
      (fun _ => true) [("robot", .map [("cam", .ndarray .uint8 [2, 2] [0, 0, 0, 0])])]
      [("a", 5)] rfl rfl).2 (Or.inr rfl)

/-- Claim C6, code evaluation at the failing input: after
`initiate_shutdown()`, serving the next `get_action` does deliver the
shutdown status envelope and does signal the one-shot event, but it leaves
`self.running` true: `BaseZMQServer.run` never calls
`CommandService._post_send`, the only code that would clear `running` after
the delivery, so the orchestrator's run loop does not exit. -/
theorem c6_shutdown_delivery_keeps_loop_running :
    (serveGetAction (initiateShutdown (initialOrchestrator ["idle"] "idle"))
        (fun _ => false) [] []).1 = .statusShutdown ∧
    (serveGetAction (initiateShutdown (initialOrchestrator ["idle"] "idle"))
        (fun _ => false) [] []).2.notified = true ∧
    (serveGetAction (initiateShutdown (initialOrchestrator ["idle"] "idle"))
        (fun _ => false) [] []).2.running = true ∧
    (postSend (serveGetAction (initiateShutdown (initialOrchestrator ["idle"] "idle"))
        (fun _ => false) [] []).2).running = false := by
  refine ⟨rfl, rfl, rfl, rfl⟩

/-!  Server request dispatch (`BaseZMQServer.run`, transport.py). -/

/-- A decoded request map, as read by `run`: the optional `endpoint`,
`data` and `api_token` fields. -/
structure RpcRequest where
  endpoint : Option String
  data : Option Value
  apiToken : Option String

/-- Server-side dispatch configuration: the optional token and the
registered endpoints with their `requires_input` flags, in registration
order. -/
structure ServerCfg where
  apiToken : Option String
  endpoints : List (String × Bool)

/-- `BaseZMQServer._validate_token`. -/
def validateToken (cfg : ServerCfg) (r : RpcRequest) : Bool :=
  match cfg.apiToken with
  | none => true
  | some t => r.apiToken == some t

/-- What `BaseZMQServer.run` decides to do with one authorized request. -/
inductive Dispatch where
  | unauthorized
  | unknownEndpoint (name : String)
  | invoke (name : String) (arg : Option Value)

/-- The request-routing logic of `BaseZMQServer.run`: reject bad tokens,
read `request.get("endpoint", "get_action")`, raise on unregistered names,
and otherwise call the handler, with `request.get("data", empty map)` when it
requires input. -/
def dispatchRequest (cfg : ServerCfg) (r : RpcRequest) : Dispatch :=
  if !(validateToken cfg r) then .unauthorized
  else
    let endpoint := r.endpoint.getD "get_action"
    match List.lookup endpoint cfg.endpoints with
    | none => .unknownEndpoint endpoint
    | some requiresInput =>
        .invoke endpoint (if requiresInput then some (r.data.getD (.map [])) else none)

/-- Claim C10: an authorized request whose map lacks the `endpoint` field is
not rejected as an unknown endpoint; it is dispatched to the handler
registered under "get_action" (which requires input), with the request's
`data` field (or an empty map) as argument. -/
theorem c10_default_endpoint (cfg : ServerCfg) (r : RpcRequest)
    (hauth : validateToken cfg r = true)
    (hmissing : r.endpoint = none)
    (hreg : List.lookup "get_action" cfg.endpoints = some true) :
    dispatchRequest cfg r = .invoke "get_action" (some (r.data.getD (.map []))) := by
  simp [dispatchRequest, hauth, hmissing, hreg]

/-- Witness for C10: the concrete endpoint table of a `CommandService`
(ping, kill, get_action, sync_config) and a token-free request carrying only
a data map dispatches to "get_action". -/
theorem c10_default_endpoint_witness :
    dispatchRequest
      { apiToken := none
        endpoints := [("ping", false), ("kill", false), ("get_action", true), ("sync_config", true)] }
      { endpoint := none, data := some (.map [("observation", .null)]), apiToken := none } =
    .invoke "get_action" (some (.map [("observation", .null)])) :=
  c10_default_endpoint _ _ rfl rfl rfl

/-!  Edge control loop (`brainbot_control_service/command_loop.py` together
with `RobotControlService` from `service.py`).

Action values are passed through untouched on the paths below (the default
action adapter is the identity and no action filter is configured), so they
are modelled as rationals; `0.0` is the float zero `zero_command` writes. -/

/-- The per-loop mutable state the fallback ladder reads and writes:
`CommandLoop._missed_actions` and `RobotControlService._last_action`. -/
structure ControlState where
  missed : Nat
  lastActions : List (String × ℚ)
deriving DecidableEq, Repr

/-- `RobotControlService._zero_action`: zeros over the robot's
`action_features` keys. -/
def zeroActions (features : List String) : List (String × ℚ) :=
  features.map fun k => (k, 0)

/-- `RobotControlService.apply_action` with the default identity action
adapter and no action filter: a non-empty mapped action is sent to the robot
and recorded as last action; an empty one only resets the record. -/
def applyAction (s : ControlState) (a : List (String × ℚ)) : ControlState :=
  if a.isEmpty then { s with lastActions := [] } else { s with lastActions := a }

/-- Outcome of the `get_action` RPC as classified by `CommandLoop.run`:
a reply, a timeout, or the shutdown envelope. -/
inductive RpcOutcome where
  | ok (actions : List (String × ℚ))
  | timeout
  | shutdownEnvelope

/-- One iteration of `CommandLoop.run` after the observation was sent,
returning the action applied this tick (`none` when the loop breaks on
shutdown) and the new state.  On a timeout the miss counter is incremented;
then either (counter above `max_missed_actions`) `zero_command` builds and
records the zero action and the counter resets, or a configured non-empty
fallback is used, or `fallback_command` re-issues the last action.  On a
reply the counter resets.  `service.apply_action` then runs on the chosen
action. -/
def tick (maxMissed : Nat) (fallback : List (String × ℚ)) (features : List String)
    (s : ControlState) : RpcOutcome → Option (List (String × ℚ)) × ControlState
  | .shutdownEnvelope => (none, s)
  | .timeout =>
      let s1 : ControlState := { s with missed := s.missed + 1 }
      if maxMissed < s1.missed then
        let z := zeroActions features
        let s2 : ControlState := { s1 with lastActions := z, missed := 0 }
        (some z, applyAction s2 z)
      else if !fallback.isEmpty then
        (some fallback, applyAction s1 fallback)
      else
        (some s1.lastActions, applyAction s1 s1.lastActions)
  | .ok a => (some a, applyAction { s with missed := 0 } a)

/-- Claim C2: on a timed-out tick the miss counter is incremented and then
(a) above `max_missed_actions` the zero-vector over the known actuator keys
is applied and the counter resets; (b) otherwise a configured non-empty
literal fallback is applied; (c) otherwise the last-applied action is
re-applied; and on a successful reply the counter resets to 0. -/
theorem c2_fallback_ladder (maxMissed : Nat) (fallback : List (String × ℚ))
    (features : List String) (s : ControlState) :
    (maxMissed < s.missed + 1 →
      tick maxMissed fallback features s .timeout =
        (some (zeroActions features),
          { missed := 0, lastActions := zeroActions features })) ∧
    (¬ maxMissed < s.missed + 1 → fallback ≠ [] →
      tick maxMissed fallback features s .timeout =
        (some fallback, { missed := s.missed + 1, lastActions := fallback })) ∧
    (¬ maxMissed < s.missed + 1 → fallback = [] →
      tick maxMissed fallback features s .timeout =
        (some s.lastActions, { missed := s.missed + 1, lastActions := s.lastActions })) ∧
    (∀ a, (tick maxMissed fallback features s (.ok a)).2.missed = 0) := by
  refine ⟨?_, ?_, ?_, ?_⟩
  · intro hover
    by_cases hz : (zeroActions features).isEmpty <;>
      simp_all [tick, applyAction, zeroActions, List.isEmpty_iff]
  · intro hunder hfb
    have hfb2 : fallback.isEmpty = false := by
      cases fallback with
      | nil => exact absurd rfl hfb
      | cons a l => rfl
    simp [tick, applyAction, hunder, hfb2]
  · intro hunder hfb
    subst hfb
    by_cases hl : s.lastActions.isEmpty <;>
      simp_all [tick, applyAction, List.isEmpty_iff]
  · intro a
    by_cases ha : a.isEmpty <;> simp [tick, applyAction, ha]

/-- Witness for C2: the spec's timeout-ladder scenario S2 —
`max_missed_actions = 2`, literal fallback `a = 1/10`, actuator features
`[a]`.  Three consecutive timeouts from a fresh loop apply the fallback,
the fallback again, and then the zero-vector with the counter reset. -/
theorem c2_fallback_ladder_witness :
    tick 2 [("a", (1 : ℚ)/10)] ["a"] ⟨0, []⟩ .timeout =
      (some [("a", (1 : ℚ)/10)], ⟨1, [("a", (1 : ℚ)/10)]⟩) ∧
    tick 2 [("a", (1 : ℚ)/10)] ["a"] ⟨1, [("a", (1 : ℚ)/10)]⟩ .timeout =
      (some [("a", (1 : ℚ)/10)], ⟨2, [("a", (1 : ℚ)/10)]⟩) ∧
    tick 2 [("a", (1 : ℚ)/10)] ["a"] ⟨2, [("a", (1 : ℚ)/10)]⟩ .timeout =
      (some [("a", (0 : ℚ))], ⟨0, [("a", (0 : ℚ))]⟩) := by
  refine ⟨?_, ?_, ?_⟩
  · exact (c2_fallback_ladder 2 [("a", (1 : ℚ)/10)] ["a"] ⟨0, []⟩).2.1
      (by decide) (by decide)
  · exact (c2_fallback_ladder 2 [("a", (1 : ℚ)/10)] ["a"] ⟨1, [("a", (1 : ℚ)/10)]⟩).2.1
      (by decide) (by decide)
  · exact (c2_fallback_ladder 2 [("a", (1 : ℚ)/10)] ["a"] ⟨2, [("a", (1 : ℚ)/10)]⟩).1
      (by decide)

/-!  Data-collection provider
(`brainbot_command_service/providers/data.py`).

The LeRobot dataset is external; its contract is: `add_frame` grows the
episode buffer, `save_episode` persists the buffered frames, increments
`num_episodes` and resets the buffer, and `clear_episode_buffer` drops the
buffer without persisting.  `time.perf_counter` is modelled by natural-number
instants.  The provider is prepared (`self._dataset` is set) in every state
below. -/

/-- `DataCollectionCommandProvider._state` values. -/
inductive RecState where
  | idle
  | record
  | reset
  | complete
deriving DecidableEq, Repr

/-- The five latched operator event flags (`self._events`). -/
structure DataEvents where
  exitEarly : Bool
  rerecordEpisode : Bool
  stopRecording : Bool
  resetRequested : Bool
  continueAfterReset : Bool
deriving DecidableEq, Repr

/-- All flags cleared. -/
def noEvents : DataEvents :=
  { exitEarly := false, rerecordEpisode := false, stopRecording := false,
    resetRequested := false, continueAfterReset := false }

/-- State of a prepared `DataCollectionCommandProvider`. -/
structure DataCollection where
  state : RecState
  events : DataEvents
  episodesRecorded : Nat
  bufferSize : Nat
  deadline : Option Nat
  episodeSeconds : Nat
  resetSeconds : Nat
  targetEpisodes : Nat
  recordingEnabled : Bool
  completeLogged : Bool
deriving DecidableEq, Repr

/-- `_finalize_episode`: with no buffered frames the save is skipped;
otherwise `save_episode` persists the buffer (the episode counter follows
`dataset.num_episodes`) and the buffer resets. -/
def finalizeEpisode (s : DataCollection) : DataCollection :=
  if s.bufferSize = 0 then s
  else { s with episodesRecorded := s.episodesRecorded + 1, bufferSize := 0 }

/-- `dataset.clear_episode_buffer()`: drop buffered frames unpersisted. -/
def clearEpisodeBuffer (s : DataCollection) : DataCollection :=
  { s with bufferSize := 0 }

/-- `_begin_recording`. -/
def beginRecording (s : DataCollection) (now : Nat) : DataCollection :=
  { s with state := .record, recordingEnabled := true,
           deadline := some (now + s.episodeSeconds) }

/-- `_enter_reset`. -/
def enterReset (s : DataCollection) (now : Nat) : DataCollection :=
  { s with state := .reset, recordingEnabled := false,
           deadline := some (now + s.resetSeconds) }

/-- `_mark_complete`: terminal state, clears the deadline and every latched
event flag. -/
def markComplete (s : DataCollection) : DataCollection :=
  { s with state := .complete, recordingEnabled := false, deadline := none,
           completeLogged := true, events := noEvents }

/-- The record/reset deadline test `now >= self._state_deadline`. -/
def deadlineReached (s : DataCollection) (now : Nat) : Bool :=
  match s.deadline with
  | some d => d ≤ now
  | none => false

/-- Tail of `_update_state`: the record/reset state machine section. -/
def updateStateMachine (s : DataCollection) (now : Nat) (force : Bool) : DataCollection :=
  if s.state = .record then
    if deadlineReached s now || (s.events.exitEarly || force) then
      let s1 := finalizeEpisode s
      if s1.events.rerecordEpisode then
        let s2 := clearEpisodeBuffer
          { s1 with events := { s1.events with rerecordEpisode := false, exitEarly := false } }
        beginRecording s2 now
      else
        let s2 := { s1 with events := { s1.events with exitEarly := false } }
        if s2.targetEpisodes ≠ 0 ∧ s2.targetEpisodes ≤ s2.episodesRecorded then
          markComplete s2
        else if s2.events.stopRecording then
          markComplete { s2 with events := { s2.events with stopRecording := false } }
        else if 0 < s2.resetSeconds ∧ ¬ force then enterReset s2 now
        else beginRecording s2 now
    else s
  else if s.state = .reset then
    if deadlineReached s now || (s.events.exitEarly || (s.events.stopRecording || force)) then
      let s1 := { s with events := { s.events with exitEarly := false } }
      if s1.events.stopRecording then
        markComplete { s1 with events := { s1.events with stopRecording := false } }
      else if s1.targetEpisodes ≠ 0 ∧ s1.targetEpisodes ≤ s1.episodesRecorded then
        markComplete s1
      else beginRecording s1 now
    else s
  else s

/-- Middle of `_update_state`: the `continue_after_reset` branch; falls
through to the state machine section when it does not return early. -/
def updateStateContinue (s : DataCollection) (now : Nat) (force : Bool) : DataCollection :=
  if s.events.continueAfterReset then
    let s1 := { s with events :=
      { s.events with continueAfterReset := false, resetRequested := false } }
    if s1.state = .reset then beginRecording s1 now
    else updateStateMachine s1 now force
  else updateStateMachine s now force

/-- Middle of `_update_state`: the `reset_requested` branch; for idle and
complete states it clears the flag and falls through. -/
def updateStateReset (s : DataCollection) (now : Nat) (force : Bool) : DataCollection :=
  if s.events.resetRequested ∧ ¬ s.events.continueAfterReset then
    let s1 := { s with events := { s.events with resetRequested := false } }
    if s1.state = .record then
      let s2 := finalizeEpisode s1
      if s2.targetEpisodes ≠ 0 ∧ s2.targetEpisodes ≤ s2.episodesRecorded then markComplete s2
      else enterReset s2 now
    else if s1.state = .reset then beginRecording s1 now
    else updateStateContinue s1 now force
  else updateStateContinue s now force

/-- `_update_state(now, force)`: the stop branch, then the reset-request
branch, the continue branch and the state machine section. -/
def updateState (s : DataCollection) (now : Nat) (force : Bool) : DataCollection :=
  if s.events.stopRecording ∧ s.state ≠ .complete then
    let s1 := if s.state = .record ∨ s.state = .reset then finalizeEpisode s else s
    markComplete { s1 with events :=
      { s1.events with stopRecording := false, exitEarly := false,
                       rerecordEpisode := false, resetRequested := false } }
  else updateStateReset s now force

/-- `handle_control_command(command)`: latch the event flags for the
normalized command and then force-evaluate the state machine
(`_process_events`, with `force` only for the stop commands). -/
def handleControlCommand (s : DataCollection) (cmd : String) (now : Nat) : DataCollection :=
  let force := cmd = "stop" ∨ cmd = "end" ∨ cmd = "finish"
  let s1 :=
    if cmd = "stop" ∨ cmd = "end" ∨ cmd = "finish" then
      { s with events := { s.events with stopRecording := true } }
    else if cmd = "next" ∨ cmd = "skip" then
      { s with events := { s.events with exitEarly := true } }
    else if cmd = "rerecord" ∨ cmd = "redo" then
      { s with events := { s.events with rerecordEpisode := true, exitEarly := true } }
    else if cmd = "reset" then
      { s with events := { s.events with resetRequested := true } }
    else if cmd = "resume" ∨ cmd = "next_stage" then
      { s with events := { s.events with continueAfterReset := true } }
    else s
  updateState s1 now (decide force)

/-- The concrete recording state C8 is evaluated at: mid-episode (tick 1 of
a 10-second episode), five frames buffered, nothing recorded yet, two target
episodes. -/
def c8Recording : DataCollection :=
  { state := .record, events := noEvents, episodesRecorded := 0, bufferSize := 5,
    deadline := some 10, episodeSeconds := 10, resetSeconds := 5, targetEpisodes := 2,
    recordingEnabled := true, completeLogged := false }

/-- Claim C8, code evaluation at the failing input: a `rerecord` command
arriving during recording latches `rerecord_episode` and `exit_early` and
immediately force-evaluates the exit.  `_update_state` calls
`_finalize_episode()` before it tests the rerecord flag, so the five
buffered frames are persisted (`episodes_recorded` becomes 1) and the
subsequent `clear_episode_buffer()` clears an already-saved buffer; only
then does recording restart.  The claim (and the spec) say the buffer is
discarded instead of persisted. -/
theorem c8_rerecord_persists_buffer :
    (handleControlCommand c8Recording "rerecord" 1).episodesRecorded = 1 ∧
    (handleControlCommand c8Recording "rerecord" 1).state = .record ∧
    (handleControlCommand c8Recording "rerecord" 1).bufferSize = 0 := by
  refine ⟨rfl, rfl, rfl⟩

/-!  RPC client scoped timeout (`BaseZMQClient`, transport.py). -/

/-- Client state: the receive/send deadline and an abstract stand-in for the
rest of the object (socket generation counter). -/
structure ZmqClient where
  timeoutMs : Nat
  socketGeneration : Nat
deriving DecidableEq, Repr

/-- Modelled from the spec: `BaseZMQClient.temporary_timeout`.  The method
is used in `run_command_service.py`
(`with ai_client.temporary_timeout(startup_timeout_ms): ...`) but its
definition is not present under src/; per the spec, callers "may set a
scoped longer timeout (e.g. for provider prepare) and restore the previous
value on exit regardless of outcome".  The scope body is a state transformer
that returns its outcome (success or raised error) together with the
client state it leaves behind, as Python object mutations survive
exceptions; on exit the saved timeout is written back in all cases. -/
def temporaryTimeout {α : Type} (c : ZmqClient) (t : Nat)
    (body : ZmqClient → Except String α × ZmqClient) : Except String α × ZmqClient :=
  let saved := c.timeoutMs
  let r := body { c with timeoutMs := t }
  (r.1, { r.2 with timeoutMs := saved })

/-- Claim C9 (spec-modelled): the scoped override runs its body with the
temporary timeout installed, propagates the body's outcome unchanged
(success, timeout error, or any other raise), preserves whatever else the
body did to the client, and always restores the previous timeout value on
exit. -/
theorem c9_temporary_timeout_restores {α : Type} (c : ZmqClient) (t : Nat)
    (body : ZmqClient → Except String α × ZmqClient) :
    (temporaryTimeout c t body).2.timeoutMs = c.timeoutMs ∧
    (temporaryTimeout c t body).1 = (body { c with timeoutMs := t }).1 ∧
    (temporaryTimeout c t body).2.socketGeneration =
      (body { c with timeoutMs := t }).2.socketGeneration := by
  refine ⟨rfl, rfl, rfl⟩

end Brainbot
